import Mathlib

/-!
# KernelGPIO: a shallow embedding of `src/src/KernelGPIO.cpp`

The class is embedded as a record of its data members together with one pure
function per member function.  Every member function takes the object state and
the replies the libgpiod calls give during that invocation, and returns its
C++ result, the new object state and the ordered list of the external actions
it performed (libgpiod calls, thread control calls, diagnostics on `cout`).

Handles (`gpiod_chip *`, `gpiod_line_request *`) are `Option Nat`: `none` is
`nullptr`.  `int` results of libgpiod are `Int`.
-/

/-- The `gpio_direction_t` enumeration of `KernelGPIO.hpp`. -/
inductive gpio_direction_t where
  | INPUT
  | OUTPUT
  deriving DecidableEq, Repr

/-- The `gpio_edge_t` enumeration of `KernelGPIO.hpp`. -/
inductive gpio_edge_t where
  | NONE
  | RISING
  | FALLING
  | BOTH
  deriving DecidableEq, Repr

/-- The value `gpiod_edge_event_get_event_type` returns, as the `switch` of
`run()` classifies it: equal to the constant of its first `case`, equal to the
constant of its second `case`, or anything else (the `default` branch). -/
inductive edge_event_type where
  | GPIOD_LINE_EDGE_RISING
  | GPIOD_LINE_EDGE_FALLING
  | unknown (code : Int)
  deriving DecidableEq, Repr

/-- External actions a member function performs, in program order. -/
inductive GpioAction where
  | gpiod_chip_open (chipname : String)
  | gpiod_chip_close (chip : Nat)
  | gpiod_line_request_release (request : Nat)
  | gpiod_line_settings_new
  | gpiod_line_settings_set_direction (direction : gpio_direction_t)
  | gpiod_line_settings_set_output_value (value : Bool)
  | gpiod_line_settings_set_edge_detection (edge : gpio_edge_t)
  | gpiod_line_settings_set_active_low (active_low : Bool)
  | gpiod_line_config_new
  | gpiod_line_config_add_line_settings (offset : Nat)
  | gpiod_request_config_new
  | gpiod_request_config_set_consumer (consumer : String)
  | gpiod_chip_request_lines (chip : Option Nat)
  | gpiod_request_config_free
  | gpiod_line_config_free
  | gpiod_line_settings_free
  | gpiod_line_request_set_value (request : Nat) (offset : Nat) (value : Bool)
  | gpiod_line_request_get_value (request : Nat) (offset : Nat)
  | gpiod_edge_event_buffer_new
  | gpiod_line_request_wait_edge_events (request : Option Nat)
  | gpiod_line_request_read_edge_events (request : Option Nat)
  | gpiod_edge_event_buffer_free
  | start
  | stop
  | join
  | callback (value : Bool)
  | cout (text : String)
  | cout_errno (text : String) (err : Int)
  deriving DecidableEq, Repr

/-- The data members of `class KernelGPIO : public Runable`.  `_run` is the
member of the base class that `run()` reads; `m_callback` records only whether
a handler is installed (`true`) or the slot is `nullptr` (`false`). -/
structure KernelGPIO where
  chipname : String
  m_value : Bool
  m_direction : gpio_direction_t
  m_edge : gpio_edge_t
  m_active_low : Bool
  m_callback : Bool
  m_line_num : Nat
  m_chip : Option Nat
  m_request : Option Nat
  _run : Bool
  deriving DecidableEq, Repr

/-- Replies of libgpiod during one call of `configure`, in call order.  The
allocation replies say whether the returned pointer is non-null. -/
structure ConfigureKernel where
  line_settings_new : Bool
  set_direction : Int
  set_output_value : Int
  set_edge_detection : Int
  line_config_new : Bool
  add_line_settings : Int
  line_config_new2 : Bool
  add_line_settings2 : Int
  request_config_new : Bool
  chip_request_lines : Option Nat
  deriving DecidableEq, Repr

/-- Reply of `gpiod_line_request_set_value` / `gpiod_line_request_get_value`
together with the `errno` it leaves. -/
structure ValueKernel where
  ret : Int
  err : Int
  deriving DecidableEq, Repr

/-- Replies to the two reads `get_value` can issue (lines 309 and 331). -/
structure GetValueKernel where
  first : ValueKernel
  second : ValueKernel
  deriving DecidableEq, Repr

/-- One reply of `gpiod_line_request_read_edge_events`: its result, the `errno`
it leaves, and the type of the event it put in slot 0 of the buffer. -/
structure ReadReply where
  ret : Int
  err : Int
  event_type : edge_event_type
  deriving DecidableEq, Repr

/-- One return of `gpiod_line_request_wait_edge_events` followed by the replies
the reads of the inner loop get. -/
structure WaitReply where
  ret : Int
  err : Int
  reads : List ReadReply
  deriving DecidableEq, Repr

/-- The value of `EAGAIN` in `errno.h`. -/
def EAGAIN : Int := 11

namespace KernelGPIO

open gpio_direction_t gpio_edge_t

/-- Modelled from the spec: `Runable::start()` of the absent `Runable.hpp`.
The runner launches the loop body and the shared flag `_run` lets it iterate. -/
def start (s : KernelGPIO) : KernelGPIO × List GpioAction :=
  ({ s with _run := true }, [GpioAction.start])

/-- Modelled from the spec: `Runable::stop()` of the absent `Runable.hpp`
(sets the shared stop flag). -/
def stop (s : KernelGPIO) : KernelGPIO × List GpioAction :=
  ({ s with _run := false }, [GpioAction.stop])

/-- Modelled from the spec: `Runable::join()` of the absent `Runable.hpp`
(blocks until the loop execution unit has exited). -/
def join (s : KernelGPIO) : KernelGPIO × List GpioAction :=
  (s, [GpioAction.join])

/-- Modelled from the spec: `Runable::isRunning()` of the absent `Runable.hpp`. -/
def isRunning (s : KernelGPIO) : Bool :=
  s._run

/-- The constructor, lines 28-46.  The initialiser list names neither
`chipname` (default-constructed), `m_edge` nor `m_line_num`; the values the last
two hold are parameters here.  `line < 0` is false for every `size_t`. -/
def ctor (chipname : String) (_line : Nat) (uninit_edge : gpio_edge_t)
    (uninit_line_num : Nat) (chip_open : Option Nat) : KernelGPIO × List GpioAction :=
  let s : KernelGPIO :=
    { chipname := "", m_value := false, m_direction := INPUT, m_edge := uninit_edge,
      m_active_low := false, m_callback := false, m_line_num := uninit_line_num,
      m_chip := chip_open, m_request := none, _run := false }
  match chip_open with
  | none =>
    (s, [GpioAction.gpiod_chip_open chipname,
         GpioAction.cout ("Failed to open GPIO chip <" ++ chipname ++ ">")])
  | some _ => (s, [GpioAction.gpiod_chip_open chipname])

/-- The function `release_request`, lines 450-460. -/
def release_request (s : KernelGPIO) : KernelGPIO × List GpioAction :=
  match s.m_request with
  | some r => ({ s with m_request := none }, [GpioAction.gpiod_line_request_release r])
  | none => (s, [])

/-- The function `close_chip`, lines 469-479. -/
def close_chip (s : KernelGPIO) : KernelGPIO × List GpioAction :=
  match s.m_chip with
  | some c => ({ s with m_chip := none }, [GpioAction.gpiod_chip_close c])
  | none => (s, [])

/-- The destructor, lines 53-64. -/
def dtor (s : KernelGPIO) : KernelGPIO × List GpioAction :=
  if isRunning s then
    let r1 := stop s
    let r2 := join r1.1
    let r3 := close_chip r2.1
    (r3.1, r1.2 ++ r2.2 ++ r3.2)
  else
    close_chip s

/-- The inline `set_callback` of `KernelGPIO.hpp`, line 72. -/
def set_callback (s : KernelGPIO) (callback : Bool) : KernelGPIO :=
  { s with m_callback := callback }

/-- Accessor `get_chipname`, `KernelGPIO.hpp` line 79. -/
def get_chipname (s : KernelGPIO) : String := s.chipname

/-- Accessor `get_line`, `KernelGPIO.hpp` line 80. -/
def get_line (s : KernelGPIO) : Nat := s.m_line_num

/-- Accessor `get_direction`, `KernelGPIO.hpp` line 81. -/
def get_direction (s : KernelGPIO) : gpio_direction_t := s.m_direction

/-- Accessor `get_edge`, `KernelGPIO.hpp` line 82. -/
def get_edge (s : KernelGPIO) : gpio_edge_t := s.m_edge

/-- Accessor `get_active_low`, `KernelGPIO.hpp` line 83. -/
def get_active_low (s : KernelGPIO) : Bool := s.m_active_low

/-- Lines 168-198 of `configure`: allocate the request config, request the
line, and on success set `retVal`, store the cached configuration and start
the thread when `edge != NONE`. -/
def configure_request (s : KernelGPIO) (direction : gpio_direction_t) (edge : gpio_edge_t)
    (k : ConfigureKernel) : Bool × KernelGPIO × List GpioAction :=
  if k.request_config_new = false then
    (false, s,
      [GpioAction.gpiod_request_config_new,
       GpioAction.cout " KernelGPIO : Failed to allocate request config",
       GpioAction.gpiod_request_config_free])
  else
    let s1 : KernelGPIO := { s with m_request := k.chip_request_lines }
    let t1 := [GpioAction.gpiod_request_config_new,
               GpioAction.gpiod_request_config_set_consumer "KerneoGPIO",
               GpioAction.gpiod_chip_request_lines s.m_chip]
    match k.chip_request_lines with
    | none =>
      (false, s1,
        t1 ++ [GpioAction.cout " KernelGPIO : Failed to request GPIO line",
               GpioAction.gpiod_request_config_free])
    | some _ =>
      if edge ≠ NONE then
        let r := start { s1 with m_direction := direction, m_edge := edge }
        (true, r.1, t1 ++ r.2 ++ [GpioAction.gpiod_request_config_free])
      else
        (true, s1, t1 ++ [GpioAction.gpiod_request_config_free])

/-- Lines 139-205 of `configure`: the two rounds of line-config allocation and
`add_line_settings`, then the request. -/
def configure_line_config (s : KernelGPIO) (direction : gpio_direction_t) (edge : gpio_edge_t)
    (offset : Nat) (k : ConfigureKernel) : Bool × KernelGPIO × List GpioAction :=
  if k.line_config_new = false then
    (false, s,
      [GpioAction.gpiod_line_config_new, GpioAction.cout " KernelGPIO : Failed to allocate line config"])
  else if k.add_line_settings < 0 then
    (false, s,
      [GpioAction.gpiod_line_config_new, GpioAction.gpiod_line_config_add_line_settings offset,
       GpioAction.cout " KernelGPIO : Failed to add line settings",
       GpioAction.gpiod_line_config_free])
  else
    let t1 := [GpioAction.gpiod_line_config_new, GpioAction.gpiod_line_config_add_line_settings offset,
               GpioAction.gpiod_line_config_new]
    if k.line_config_new2 = false then
      (false, s,
        t1 ++ [GpioAction.cout " KernelGPIO : Failed to allocate line config",
               GpioAction.gpiod_line_config_free])
    else if k.add_line_settings2 < 0 then
      (false, s,
        t1 ++ [GpioAction.gpiod_line_config_add_line_settings offset,
               GpioAction.cout " KernelGPIO : Failed to add line settings",
               GpioAction.gpiod_line_config_free])
    else
      let r := configure_request s direction edge k
      (r.1, r.2.1,
        t1 ++ [GpioAction.gpiod_line_config_add_line_settings offset] ++ r.2.2
          ++ [GpioAction.gpiod_line_config_free])

/-- Lines 113-125 of `configure`: the output value is set only for
`direction == OUTPUT`; a rejected value is reported on `cout`, an accepted one
is stored in `m_value`.  Control continues at line 127 in both cases. -/
def configure_output_value (s : KernelGPIO) (direction : gpio_direction_t) (value : Bool)
    (k : ConfigureKernel) : KernelGPIO × List GpioAction :=
  if direction = OUTPUT then
    if k.set_output_value < 0 then
      (s, [GpioAction.gpiod_line_settings_set_output_value value,
           GpioAction.cout " KernelGPIO : Failed to set output value"])
    else
      ({ s with m_value := value }, [GpioAction.gpiod_line_settings_set_output_value value])
  else
    (s, [])

/-- The function `configure`, lines 85-214. -/
def configure (s : KernelGPIO) (direction : gpio_direction_t) (active_low : Bool)
    (edge : gpio_edge_t) (value : Bool) (k : ConfigureKernel) :
    Bool × KernelGPIO × List GpioAction :=
  let offset := s.m_line_num
  let r0 := release_request s
  let t0 := r0.2 ++ [GpioAction.gpiod_line_settings_new]
  if k.line_settings_new = false then
    (false, r0.1, t0 ++ [GpioAction.cout " KernelGPIO : Failed to allocate line settings"])
  else if k.set_direction < 0 then
    (false, r0.1,
      t0 ++ [GpioAction.gpiod_line_settings_set_direction direction,
             GpioAction.cout " KernelGPIO : Failed to set direction",
             GpioAction.gpiod_line_settings_free])
  else
    let r1 := configure_output_value r0.1 direction value k
    let t1 := t0 ++ [GpioAction.gpiod_line_settings_set_direction direction] ++ r1.2
                ++ [GpioAction.gpiod_line_settings_set_edge_detection edge]
    if k.set_edge_detection < 0 then
      (false, r1.1,
        t1 ++ [GpioAction.cout " KernelGPIO : Failed to set edge detection",
               GpioAction.gpiod_line_settings_free])
    else
      let r2 := configure_line_config r1.1 direction edge offset k
      (r2.1, r2.2.1,
        t1 ++ [GpioAction.gpiod_line_settings_set_active_low active_low] ++ r2.2.2
          ++ [GpioAction.gpiod_line_settings_free])

/-- The function `set_value`, lines 223-257. -/
def set_value (s : KernelGPIO) (value : Bool) (k : ValueKernel) :
    Bool × KernelGPIO × List GpioAction :=
  if s.m_direction ≠ OUTPUT then
    (false, s, [GpioAction.cout " KernelGPIO : Line is not configured for output"])
  else
    match s.m_request with
    | none => (false, s, [GpioAction.cout " KernelGPIO : Request is null??"])
    | some r =>
      if k.ret < 0 then
        (false, s,
          [GpioAction.gpiod_line_request_set_value r s.m_line_num value,
           GpioAction.cout_errno " KernelGPIO : Failed to set value - errno = " k.err])
      else
        (true, { s with m_value := value },
          [GpioAction.gpiod_line_request_set_value r s.m_line_num value])

/-- The read block that occurs twice in `get_value` (lines 303-317 and
325-339): with no request it only reports; otherwise it reads the line, reports
a negative result, and in either case assigns the `int` result to the `bool`
`retVal` (the braces after the `if` are a plain block, not an `else`). -/
def get_value_read (s : KernelGPIO) (retVal : Bool) (k : ValueKernel) : Bool × List GpioAction :=
  match s.m_request with
  | none => (retVal, [GpioAction.cout " KernelGPIO : Request is null??"])
  | some r =>
    if k.ret < 0 then
      (decide (k.ret ≠ 0),
        [GpioAction.gpiod_line_request_get_value r s.m_line_num,
         GpioAction.cout_errno " KernelGPIO : Failed to get value - errno = " k.err])
    else
      (decide (k.ret ≠ 0), [GpioAction.gpiod_line_request_get_value r s.m_line_num])

/-- The function `get_value`, lines 280-378. -/
def get_value (s : KernelGPIO) (k : GetValueKernel) : Bool × KernelGPIO × List GpioAction :=
  match s.m_chip with
  | none => (false, s, [GpioAction.cout "KernelGPIO : No chip open"])
  | some _ =>
    match s.m_request with
    | some _ => (false, s, [GpioAction.cout "KernelGPIO : No request open"])
    | none =>
      if s.m_direction = OUTPUT then
        (s.m_value, s, [])
      else
        let r1 := if s.m_edge = NONE then get_value_read s false k.first else (false, [])
        match s.m_edge with
        | NONE =>
          let r2 := get_value_read s r1.1 k.second
          (r2.1, s, r1.2 ++ r2.2)
        | BOTH => (s.m_value, s, r1.2)
        | RISING => (s.m_value, { s with m_value := false }, r1.2)
        | FALLING => (s.m_value, { s with m_value := true }, r1.2)

/-- Lines 421-432 of `run`: the latch update for one event read. -/
def apply_event (s : KernelGPIO) (ev : edge_event_type) : KernelGPIO × List GpioAction :=
  match ev with
  | edge_event_type.GPIOD_LINE_EDGE_RISING => ({ s with m_value := true }, [])
  | edge_event_type.GPIOD_LINE_EDGE_FALLING => ({ s with m_value := false }, [])
  | edge_event_type.unknown _ => (s, [GpioAction.cout " KernelGPIO : Unknown event type - "])

/-- The inner `while (ret == 0)` of `run`, lines 403-434, over the replies the
reads get.  A negative result ends the loop (reported unless `errno` is
`EAGAIN`), a zero result applies the event in the buffer and reads again, a
positive result ends the loop.  With no reply left the thread is blocked in
the read.  The `Bool` says whether the loop was left. -/
def drain (s : KernelGPIO) : List ReadReply → Bool × KernelGPIO × List GpioAction
  | [] => (false, s, [])
  | r :: rs =>
    let call := GpioAction.gpiod_line_request_read_edge_events s.m_request
    if r.ret < 0 then
      if r.err ≠ EAGAIN then
        (true, s, [call, GpioAction.cout_errno " KernelGPIO : Failed to read event - errno = " r.err])
      else
        (true, s, [call])
    else if r.ret = 0 then
      let a := apply_event s r.event_type
      let d := drain a.1 rs
      (d.1, d.2.1, [call] ++ a.2 ++ d.2.2)
    else
      (true, s, [call])

/-- The condition of the outer `while` of `run`, line 394. -/
def loop_condition (s : KernelGPIO) : Bool :=
  s._run && decide (s.m_direction = INPUT) && decide (s.m_edge ≠ NONE)

/-- The outer `while` of `run`, lines 394-435, over the returns of the wait
call.  The `Bool` says whether the loop was left (its condition failed); with
no reply left, or a drain that is still blocked, the thread stays inside. -/
def loop (s : KernelGPIO) : List WaitReply → Bool × KernelGPIO × List GpioAction
  | [] => if loop_condition s then (false, s, []) else (true, s, [])
  | w :: ws =>
    if loop_condition s then
      let call := GpioAction.gpiod_line_request_wait_edge_events s.m_request
      let t := if w.ret < 0 then
          [call, GpioAction.cout_errno " KernelGPIO : Failed to wait for event - errno = " w.err]
        else [call]
      let d := drain s w.reads
      if d.1 then
        let l := loop d.2.1 ws
        (l.1, l.2.1, t ++ d.2.2 ++ l.2.2)
      else
        (false, d.2.1, t ++ d.2.2)
    else
      (true, s, [])

/-- The function `run`, lines 380-440: the loop body the runner executes.  The
`Bool` says whether `run` returned. -/
def run (s : KernelGPIO) (buffer_new : Bool) (script : List WaitReply) :
    Bool × KernelGPIO × List GpioAction :=
  if buffer_new = false then
    (true, s,
      [GpioAction.gpiod_edge_event_buffer_new,
       GpioAction.cout " KernelGPIO : Failed to allocate event buffer"])
  else
    let l := loop s script
    if l.1 then
      (true, l.2.1,
        [GpioAction.gpiod_edge_event_buffer_new] ++ l.2.2 ++ [GpioAction.gpiod_edge_event_buffer_free])
    else
      (false, l.2.1, [GpioAction.gpiod_edge_event_buffer_new] ++ l.2.2)

/-- Whether an action is a read of the line value from the kernel. -/
def is_kernel_read : GpioAction → Bool
  | GpioAction.gpiod_line_request_get_value _ _ => true
  | _ => false

/-- A libgpiod that grants every step of `configure` and hands out request
handle 1. -/
def kernel_grants : ConfigureKernel :=
  { line_settings_new := true, set_direction := 0, set_output_value := 0,
    set_edge_detection := 0, line_config_new := true, add_line_settings := 0,
    line_config_new2 := true, add_line_settings2 := 0, request_config_new := true,
    chip_request_lines := some 1 }

/-- A freshly constructed instance for line 17 of `gpiochip0` whose chip opened
(handle 1); the members the constructor leaves unset hold `NONE` and 17. -/
def fresh : KernelGPIO :=
  (ctor "gpiochip0" 17 NONE 17 (some 1)).1

/-- A kernel that would report the line active (1) at either read of
`get_value`. -/
def line_active : GetValueKernel :=
  { first := { ret := 1, err := 0 }, second := { ret := 1, err := 0 } }

/-- A kernel that accepts a write of the line value. -/
def write_accepted : ValueKernel :=
  { ret := 0, err := 0 }

/-- One return of the wait call (an event is pending) after which the first
read delivers one event of type `t` to the processing branch of `run` and the
second read reports that nothing more is pending (`-1`, `EAGAIN`). -/
def one_event (t : edge_event_type) : WaitReply :=
  { ret := 1, err := 0,
    reads := [{ ret := 0, err := 0, event_type := t },
              { ret := -1, err := EAGAIN, event_type := edge_event_type.unknown 0 }] }

/-- A libgpiod that grants every step of `configure` up to the line request,
which the kernel refuses (line busy). -/
def kernel_refuses : ConfigureKernel :=
  { kernel_grants with chip_request_lines := none }

/-- A libgpiod that rejects the initial output value and grants every other
step of `configure`. -/
def kernel_rejects_output_value : ConfigureKernel :=
  { kernel_grants with set_output_value := -1 }

/-- The instance `fresh` after `configure(d, false, e, v)` with every step
granted. -/
def configured (d : gpio_direction_t) (e : gpio_edge_t) (v : Bool) : KernelGPIO :=
  (configure fresh d false e v kernel_grants).2.1

/-- The instance `configured INPUT e false` after its event loop has read and
applied one event of type `t` and is waiting again. -/
def after_event (e : gpio_edge_t) (t : edge_event_type) : KernelGPIO :=
  (run (configured INPUT e false) true [one_event t]).2.1

end KernelGPIO

/-! ## POpen: a shallow embedding of `src/src/POpen.cpp` -/

/-- External actions of the member functions of `POpen`, in program order. -/
inductive PosixCall where
  | system (command : String)
  | waitpid (pid : Int) (options : Int)
  | close (fd : Int)
  | fclose (fp : Nat)
  | pipe
  | fdopen (fd : Int) (mode : String)
  | fork
  | dup2 (oldfd : Int) (newfd : Int)
  | execv (path : String) (argv : List String)
  | exit (status : Int)
  deriving DecidableEq, Repr

/-- The data members of `class POpen` that `POpen.cpp` reads and writes.
`FILE *` members are `Option Nat`: `none` is `NULL`. -/
structure POpen where
  _pid : Int
  _readFd : Int
  _writeFd : Int
  _readFp : Option Nat
  _writeFp : Option Nat
  _sys_cmd : String
  deriving DecidableEq, Repr

/-- One return of `waitpid`: its result, the `errno` it leaves and the status
it stores in `pstat`. -/
structure WaitpidReply where
  pid : Int
  err : Int
  pstat : Int
  deriving DecidableEq, Repr

/-- The two descriptors `pipe` fills in, by index (`READ`, `WRITE`). -/
structure PipeFds where
  read : Int
  write : Int
  deriving DecidableEq, Repr

/-- Replies of the system during one call of `run_command`, in call order:
the `system` and `waitpid` replies serve the `reset()` it starts with; a pipe
reply of `none` is a non-zero result of `pipe`, an `fdopen` reply of `none` is
`NULL`. -/
structure RunCommandKernel where
  system_ret : Int
  waitpid : List WaitpidReply
  inpipe : Option PipeFds
  outpipe : Option PipeFds
  fdopen_read : Option Nat
  fdopen_write : Option Nat
  fork : Int
  deriving DecidableEq, Repr

/-- The value of `EINTR` in `errno.h`. -/
def EINTR : Int := 4

/-- The value of `EIO` in `errno.h`. -/
def EIO_value : Int := 5

namespace POpen

/-- The function `init_process_values`, lines 275-295. -/
def init_process_values (s : POpen) : POpen × List PosixCall :=
  let t1 := if s._readFd > -1 then [PosixCall.close s._readFd] else []
  let t2 := if s._writeFd > -1 then [PosixCall.close s._writeFd] else []
  let t3 := match s._readFp with
    | some fp => [PosixCall.fclose fp]
    | none => []
  let t4 := match s._writeFp with
    | some fp => [PosixCall.fclose fp]
    | none => []
  ({ s with _pid := -1, _readFd := -1, _writeFd := -1, _readFp := none, _writeFp := none },
    t1 ++ t2 ++ t3 ++ t4)

/-- The function `close_pipe`, lines 305-309. -/
def close_pipe (pipeset : PipeFds) : List PosixCall :=
  [PosixCall.close pipeset.read, PosixCall.close pipeset.write]

/-- The `do ... while (pid == -1 && errno == EINTR)` of `close`, lines 187-190,
over the returns of `waitpid`: the last result and status, or `none` while the
call is still blocked. -/
def wait_child (pid : Int) : List WaitpidReply → Option (Int × Int) × List PosixCall
  | [] => (none, [])
  | r :: rs =>
    if r.pid = -1 ∧ r.err = EINTR then
      let w := wait_child pid rs
      (w.1, PosixCall.waitpid pid 0 :: w.2)
    else
      (some (r.pid, r.pstat), [PosixCall.waitpid pid 0])

/-- The function `close`, lines 180-196.  The result is `none` while `waitpid`
has not returned for good.  With `_pid == -1` the local `pid` keeps its
initial `-1` and the result is `-1`. -/
def close (s : POpen) (replies : List WaitpidReply) : Option Int × POpen × List PosixCall :=
  if s._pid ≠ -1 then
    match wait_child s._pid replies with
    | (none, t) => (none, s, t)
    | (some (pid, pstat), t) =>
      let i := init_process_values s
      (some (if pid = -1 then -1 else pstat), i.1, t ++ i.2)
  else
    (some (-1), s, [])

/-- The function `kill`, lines 222-227: formats `kill -9 %d` with `_pid` into
`_sys_cmd` and hands it to `system`, whatever `_pid` holds. -/
def kill (s : POpen) (system_ret : Int) : Int × POpen × List PosixCall :=
  let cmd := "kill -9 " ++ toString s._pid
  (system_ret, { s with _sys_cmd := cmd }, [PosixCall.system cmd])

/-- The function `terminate`, lines 241-246. -/
def terminate (s : POpen) (system_ret : Int) : Int × POpen × List PosixCall :=
  let cmd := "kill -TERM " ++ toString s._pid
  (system_ret, { s with _sys_cmd := cmd }, [PosixCall.system cmd])

/-- The function `reset`, lines 205-211: `kill()` then `close()`.  The `Bool`
says whether `reset` returned. -/
def reset (s : POpen) (system_ret : Int) (replies : List WaitpidReply) :
    Bool × POpen × List PosixCall :=
  let k := kill s system_ret
  let c := close k.2.1 replies
  (c.1.isSome, c.2.1, k.2.2 ++ c.2.2)

/-- Lines 107-132 of `run_command`: what the child does after `fork`. -/
def run_command_child (command : String) (inpipe outpipe : PipeFds) : List PosixCall :=
  [PosixCall.close outpipe.read, PosixCall.close inpipe.write]
    ++ (if inpipe.read ≠ 0 then [PosixCall.dup2 inpipe.read 0, PosixCall.close inpipe.read]
        else [])
    ++ (if outpipe.write ≠ 1 then [PosixCall.dup2 outpipe.write 1, PosixCall.close outpipe.write]
        else [])
    ++ [PosixCall.execv "/bin/sh" ["sh", "-c", command], PosixCall.exit 127]

/-- Lines 92-167 of `run_command`, after the `reset()`.  The result is `none`
in the child, which never returns. -/
def run_command_spawn (s : POpen) (command : String) (k : RunCommandKernel) :
    Option Int × POpen × List PosixCall :=
  match k.inpipe with
  | none => (some (-EIO_value), s, [PosixCall.pipe])
  | some inpipe =>
    match k.outpipe with
    | none => (some (-EIO_value), s, [PosixCall.pipe, PosixCall.pipe] ++ close_pipe inpipe)
    | some outpipe =>
      let t1 := [PosixCall.pipe, PosixCall.pipe, PosixCall.fdopen outpipe.read "r"]
      let s1 : POpen := { s with _readFp := k.fdopen_read }
      match k.fdopen_read with
      | none => (some (-EIO_value), s1, t1 ++ close_pipe outpipe ++ close_pipe inpipe)
      | some rfp =>
        let t2 := t1 ++ [PosixCall.fdopen inpipe.write "w"]
        let s2 : POpen := { s1 with _writeFp := k.fdopen_write }
        match k.fdopen_write with
        | none =>
          (some (-EIO_value), s2,
            t2 ++ [PosixCall.fclose rfp] ++ close_pipe outpipe ++ close_pipe inpipe)
        | some wfp =>
          let s3 : POpen :=
            { s2 with _readFd := outpipe.read, _writeFd := inpipe.write, _pid := k.fork }
          let t3 := t2 ++ [PosixCall.fork]
          if k.fork ≠ -1 then
            if k.fork = 0 then
              (none, s3, t3 ++ run_command_child command inpipe outpipe)
            else
              (some 0, s3, t3 ++ [PosixCall.close outpipe.write, PosixCall.close inpipe.read])
          else
            (some (-EIO_value), s3,
              t3 ++ [PosixCall.fclose wfp, PosixCall.fclose rfp] ++ close_pipe outpipe
                ++ close_pipe inpipe)

/-- The function `run_command`, lines 81-168.  The result is `none` when the
`reset()` is still blocked or in the child. -/
def run_command (s : POpen) (command : String) (k : RunCommandKernel) :
    Option Int × POpen × List PosixCall :=
  let r := reset s k.system_ret k.waitpid
  if r.1 then
    let p := run_command_spawn r.2.1 command k
    (p.1, p.2.1, r.2.2 ++ p.2.2)
  else
    (none, r.2.1, r.2.2)

/-- The state `init_process_values` leaves: no child (`_pid == -1`), no
descriptors, no `FILE` pointers; the command buffer is still empty. -/
def no_child : POpen :=
  { _pid := -1, _readFd := -1, _writeFd := -1, _readFp := none, _writeFp := none,
    _sys_cmd := "" }

/-- A system on which every step of `run_command` succeeds: pipes (3, 4) and
(5, 6), two streams, child 4242. -/
def spawn_succeeds : RunCommandKernel :=
  { system_ret := 256, waitpid := [], inpipe := some { read := 3, write := 4 },
    outpipe := some { read := 5, write := 6 }, fdopen_read := some 1,
    fdopen_write := some 2, fork := 4242 }

/-- Whether an action runs a `kill` command through `system`. -/
def is_kill_command : PosixCall → Bool
  | PosixCall.system command => decide (command.toList.take 4 = "kill".toList)
  | _ => false

end POpen

namespace KernelGPIO

open gpio_direction_t gpio_edge_t

/-- The members no step of `configure` assigns: identity, polarity flag,
callback slot and chip handle. -/
def same_fixed_members (a b : KernelGPIO) : Prop :=
  a.chipname = b.chipname ∧ a.m_line_num = b.m_line_num ∧ a.m_active_low = b.m_active_low ∧
  a.m_callback = b.m_callback ∧ a.m_chip = b.m_chip

/-- The instance constructed as `KernelGPIO("gpiochip0", 17)` whose chip
opened (handle 1), with `m_edge` and `m_line_num` holding `NONE` and 0. -/
def constructed : KernelGPIO :=
  (ctor "gpiochip0" 17 NONE 0 (some 1)).1

/-- The instance `after_event BOTH` (latch `true` after a rising-type event)
after a reconfiguration to `INPUT`/`BOTH` that the kernel refused: chip open,
no request held. -/
def both_latched_unconfigured : KernelGPIO :=
  (configure (after_event BOTH edge_event_type.GPIOD_LINE_EDGE_RISING) INPUT false BOTH false
    kernel_refuses).2.1

end KernelGPIO

/-! ## Lemmas shared by the theorems below -/

namespace KernelGPIO

open gpio_direction_t gpio_edge_t

theorem release_request_m_request (s : KernelGPIO) :
    (release_request s).1.m_request = none := by
  unfold release_request
  cases h : s.m_request <;> simp [h]

theorem configure_output_value_m_request (s : KernelGPIO) (d : gpio_direction_t) (v : Bool)
    (k : ConfigureKernel) :
    (configure_output_value s d v k).1.m_request = s.m_request := by
  unfold configure_output_value
  split_ifs <;> rfl

/-- The request step reports success exactly when it stored a request. -/
theorem configure_request_result (s : KernelGPIO) (d : gpio_direction_t) (e : gpio_edge_t)
    (k : ConfigureKernel) (hs : s.m_request = none) :
    ((configure_request s d e k).1 = false → (configure_request s d e k).2.1.m_request = none) ∧
    ((configure_request s d e k).1 = true →
      k.request_config_new = true ∧ k.chip_request_lines ≠ none ∧
      (configure_request s d e k).2.1.m_request = k.chip_request_lines) := by
  unfold configure_request
  by_cases h1 : k.request_config_new = false
  · simp [h1, hs]
  · cases h2 : k.chip_request_lines with
    | none => simp [h1, h2]
    | some r =>
      by_cases h3 : e = NONE
      · simp [h1, h2, h3]
      · simp [h1, h2, h3, start]

theorem configure_line_config_result (s : KernelGPIO) (d : gpio_direction_t) (e : gpio_edge_t)
    (offset : Nat) (k : ConfigureKernel) (hs : s.m_request = none) :
    ((configure_line_config s d e offset k).1 = false →
      (configure_line_config s d e offset k).2.1.m_request = none) ∧
    ((configure_line_config s d e offset k).1 = true →
      k.line_config_new = true ∧ 0 ≤ k.add_line_settings ∧ k.line_config_new2 = true ∧
      0 ≤ k.add_line_settings2 ∧ k.request_config_new = true ∧ k.chip_request_lines ≠ none ∧
      (configure_line_config s d e offset k).2.1.m_request = k.chip_request_lines) := by
  have hr := configure_request_result s d e k hs
  unfold configure_line_config
  by_cases h1 : k.line_config_new = false
  · simp [h1, hs]
  · by_cases h2 : k.add_line_settings < 0
    · simp [h1, h2, hs]
    · by_cases h3 : k.line_config_new2 = false
      · simp [h1, h2, h3, hs]
      · by_cases h4 : k.add_line_settings2 < 0
        · simp [h1, h2, h3, h4, hs]
        · simp only [h1, h2, h3, h4, if_false]
          refine ⟨hr.1, fun h => ?_⟩
          obtain ⟨a, b, c⟩ := hr.2 h
          exact ⟨trivial, not_lt.mp h2, trivial, not_lt.mp h4, a, b, c⟩

/-- What `configure` stores in `m_request`, and the steps that a `true` result
implies were granted.  The output-value step is not among them. -/
theorem configure_result (s : KernelGPIO) (d : gpio_direction_t) (al : Bool) (e : gpio_edge_t)
    (v : Bool) (k : ConfigureKernel) :
    ((configure s d al e v k).1 = false → (configure s d al e v k).2.1.m_request = none) ∧
    ((configure s d al e v k).1 = true →
      k.line_settings_new = true ∧ 0 ≤ k.set_direction ∧ 0 ≤ k.set_edge_detection ∧
      k.line_config_new = true ∧ 0 ≤ k.add_line_settings ∧ k.line_config_new2 = true ∧
      0 ≤ k.add_line_settings2 ∧ k.request_config_new = true ∧ k.chip_request_lines ≠ none ∧
      (configure s d al e v k).2.1.m_request = k.chip_request_lines) := by
  have h0 := release_request_m_request s
  have hv := configure_output_value_m_request (release_request s).1 d v k
  have hl := configure_line_config_result
    (configure_output_value (release_request s).1 d v k).1 d e s.m_line_num k (hv.trans h0)
  unfold configure
  by_cases h1 : k.line_settings_new = false
  · simp [h1, h0]
  · by_cases h2 : k.set_direction < 0
    · simp [h1, h2, h0]
    · by_cases h3 : k.set_edge_detection < 0
      · simp [h1, h2, h3, hv, h0]
      · simp only [h1, h2, h3, if_false]
        refine ⟨hl.1, fun h => ?_⟩
        exact ⟨trivial, not_lt.mp h2, not_lt.mp h3, hl.2 h⟩

/-- With a request held `get_value` takes the branch of line 369: it returns
`false`, changes nothing and reads nothing from the kernel. -/
theorem get_value_request_held (s : KernelGPIO) (k : GetValueKernel) (r : Nat)
    (h : s.m_request = some r) :
    (get_value s k).1 = false ∧ (get_value s k).2.1 = s ∧
    ∀ a ∈ (get_value s k).2.2, is_kernel_read a = false := by
  unfold get_value
  cases hc : s.m_chip <;> simp [h, is_kernel_read]

/-- After any successful `configure` the next `get_value` returns `false`. -/
theorem get_value_after_configure (s : KernelGPIO) (d : gpio_direction_t) (al : Bool)
    (e : gpio_edge_t) (v : Bool) (k : ConfigureKernel) (g : GetValueKernel)
    (h : (configure s d al e v k).1 = true) :
    (get_value (configure s d al e v k).2.1 g).1 = false := by
  obtain ⟨_, _, _, _, _, _, _, _, hne, hreq⟩ := (configure_result s d al e v k).2 h
  obtain ⟨r, hr⟩ := Option.ne_none_iff_exists'.mp hne
  exact (get_value_request_held _ g r (hreq.trans hr)).1

/-- After any successful `set_value` the next `get_value` returns `false` and
reads nothing from the kernel. -/
theorem get_value_after_set_value (s : KernelGPIO) (v : Bool) (k : ValueKernel)
    (g : GetValueKernel) (h : (set_value s v k).1 = true) :
    (get_value (set_value s v k).2.1 g).1 = false ∧
    ∀ a ∈ (get_value (set_value s v k).2.1 g).2.2, is_kernel_read a = false := by
  have key : ∃ r, (set_value s v k).2.1.m_request = some r := by
    unfold set_value at h ⊢
    by_cases hd : s.m_direction = OUTPUT
    · cases hr : s.m_request with
      | none => simp [hd, hr] at h
      | some r =>
        by_cases hk : k.ret < 0
        · simp [hd, hr, hk] at h
        · simp [hd, hr, hk]
    · simp [hd] at h
  obtain ⟨r, hr⟩ := key
  have hg := get_value_request_held _ g r hr
  exact ⟨hg.1, hg.2.2⟩

/-- The read block of `get_value` turns a failed read (a negative result) into
`true`: the assignment `retVal = ret` is not guarded by an `else`. -/
theorem get_value_read_negative (s : KernelGPIO) (b : Bool) (k : ValueKernel) (r : Nat)
    (hr : s.m_request = some r) (hk : k.ret < 0) :
    (get_value_read s b k).1 = true := by
  unfold get_value_read
  simp [hr, hk]
  omega

end KernelGPIO

namespace KernelGPIO

open gpio_direction_t gpio_edge_t

theorem configure_request_fixed (s : KernelGPIO) (d : gpio_direction_t) (e : gpio_edge_t)
    (k : ConfigureKernel) : same_fixed_members (configure_request s d e k).2.1 s := by
  unfold configure_request same_fixed_members
  by_cases h1 : k.request_config_new = false
  · simp [h1]
  · cases h2 : k.chip_request_lines with
    | none => simp [h1]
    | some r =>
      by_cases h3 : e = NONE
      · simp [h1, h3]
      · simp [h1, h3, start]

theorem configure_line_config_fixed (s : KernelGPIO) (d : gpio_direction_t) (e : gpio_edge_t)
    (offset : Nat) (k : ConfigureKernel) :
    same_fixed_members (configure_line_config s d e offset k).2.1 s := by
  have hr := configure_request_fixed s d e k
  unfold configure_line_config
  split_ifs
  · simp [same_fixed_members]
  · simp [same_fixed_members]
  · simp [same_fixed_members]
  · simp [same_fixed_members]
  · exact hr

theorem configure_fixed (s : KernelGPIO) (d : gpio_direction_t) (al : Bool) (e : gpio_edge_t)
    (v : Bool) (k : ConfigureKernel) : same_fixed_members (configure s d al e v k).2.1 s := by
  have h0 : same_fixed_members (release_request s).1 s := by
    unfold release_request same_fixed_members
    cases h : s.m_request <;> simp
  have hv : same_fixed_members (configure_output_value (release_request s).1 d v k).1
      (release_request s).1 := by
    unfold configure_output_value same_fixed_members
    split_ifs <;> simp
  have hl := configure_line_config_fixed
    (configure_output_value (release_request s).1 d v k).1 d e s.m_line_num k
  unfold same_fixed_members at h0 hv hl ⊢
  unfold configure
  split_ifs
  · exact h0
  · exact h0
  · exact ⟨hv.1.trans h0.1, hv.2.1.trans h0.2.1, hv.2.2.1.trans h0.2.2.1,
      hv.2.2.2.1.trans h0.2.2.2.1, hv.2.2.2.2.trans h0.2.2.2.2⟩
  · exact ⟨hl.1.trans (hv.1.trans h0.1), hl.2.1.trans (hv.2.1.trans h0.2.1),
      hl.2.2.1.trans (hv.2.2.1.trans h0.2.2.1), hl.2.2.2.1.trans (hv.2.2.2.1.trans h0.2.2.2.1),
      hl.2.2.2.2.trans (hv.2.2.2.2.trans h0.2.2.2.2)⟩

/-- After a successful `configure` with `edge != NONE` the stored direction and
edge are the arguments. -/
theorem configure_stores_mode (s : KernelGPIO) (d : gpio_direction_t) (al : Bool)
    (e : gpio_edge_t) (v : Bool) (k : ConfigureKernel)
    (h : (configure s d al e v k).1 = true) (he : e ≠ NONE) :
    (configure s d al e v k).2.1.m_direction = d ∧ (configure s d al e v k).2.1.m_edge = e := by
  obtain ⟨h1, h2, h3, h4, h5, h6, h7, h8, h9, _⟩ := (configure_result s d al e v k).2 h
  obtain ⟨r, hr⟩ := Option.ne_none_iff_exists'.mp h9
  unfold configure configure_line_config configure_request
  simp [h1, h4, h6, h8, hr, he, not_lt.mpr h2, not_lt.mpr h3, not_lt.mpr h5, not_lt.mpr h7,
    start]

/-- No call of `configure` with `edge == NONE` assigns `m_direction`, `m_edge`
or `_run`. -/
theorem configure_edge_none_keeps_mode (s : KernelGPIO) (d : gpio_direction_t) (al : Bool)
    (v : Bool) (k : ConfigureKernel) :
    (configure s d al NONE v k).2.1.m_direction = s.m_direction ∧
    (configure s d al NONE v k).2.1.m_edge = s.m_edge ∧
    (configure s d al NONE v k).2.1._run = s._run := by
  have h0 : (release_request s).1.m_direction = s.m_direction ∧
      (release_request s).1.m_edge = s.m_edge ∧ (release_request s).1._run = s._run := by
    unfold release_request
    cases h : s.m_request <;> simp
  have hv : ∀ t : KernelGPIO, (configure_output_value t d v k).1.m_direction = t.m_direction ∧
      (configure_output_value t d v k).1.m_edge = t.m_edge ∧
      (configure_output_value t d v k).1._run = t._run := by
    intro t
    unfold configure_output_value
    split_ifs <;> simp
  have hq : ∀ t : KernelGPIO, (configure_request t d NONE k).2.1.m_direction = t.m_direction ∧
      (configure_request t d NONE k).2.1.m_edge = t.m_edge ∧
      (configure_request t d NONE k).2.1._run = t._run := by
    intro t
    unfold configure_request
    by_cases h1 : k.request_config_new = false
    · simp [h1]
    · cases h2 : k.chip_request_lines <;> simp [h1]
  have hl : ∀ (t : KernelGPIO) (o : Nat),
      (configure_line_config t d NONE o k).2.1.m_direction = t.m_direction ∧
      (configure_line_config t d NONE o k).2.1.m_edge = t.m_edge ∧
      (configure_line_config t d NONE o k).2.1._run = t._run := by
    intro t o
    unfold configure_line_config
    split_ifs
    · simp
    · simp
    · simp
    · simp
    · exact hq t
  have hv0 := hv (release_request s).1
  have hl0 := hl (configure_output_value (release_request s).1 d v k).1 s.m_line_num
  unfold configure
  split_ifs
  · exact h0
  · exact h0
  · exact ⟨hv0.1.trans h0.1, hv0.2.1.trans h0.2.1, hv0.2.2.trans h0.2.2⟩
  · exact ⟨hl0.1.trans (hv0.1.trans h0.1), hl0.2.1.trans (hv0.2.1.trans h0.2.1),
      hl0.2.2.trans (hv0.2.2.trans h0.2.2)⟩

/-- The functions `set_value` and `get_value` assign nothing but `m_value`. -/
theorem set_value_fixed (s : KernelGPIO) (v : Bool) (k : ValueKernel) :
    same_fixed_members (set_value s v k).2.1 s := by
  unfold set_value same_fixed_members
  by_cases hd : s.m_direction = OUTPUT
  · cases hr : s.m_request with
    | none => simp [hd]
    | some r => by_cases hk : k.ret < 0 <;> simp [hd, hk]
  · simp [hd]

theorem get_value_fixed (s : KernelGPIO) (k : GetValueKernel) :
    same_fixed_members (get_value s k).2.1 s := by
  unfold get_value same_fixed_members
  cases hc : s.m_chip with
  | none => simp [hc]
  | some c =>
    cases hr : s.m_request with
    | some r => simp [hc]
    | none =>
      by_cases hd : s.m_direction = OUTPUT
      · simp [hd, hc]
      · cases he : s.m_edge <;> simp [hd, hc]

/-- What the constructor leaves in the identity members, whatever its
arguments: an empty `chipname` and the unset `m_line_num`. -/
theorem ctor_identity (c : String) (n : Nat) (e : gpio_edge_t) (u : Nat) (chip : Option Nat) :
    get_chipname (ctor c n e u chip).1 = "" ∧ get_line (ctor c n e u chip).1 = u := by
  unfold ctor get_chipname get_line
  cases chip <;> simp

/-- The inner loop of `run` never invokes the callback. -/
theorem drain_no_callback (v : Bool) (rs : List ReadReply) (s : KernelGPIO) :
    GpioAction.callback v ∉ (drain s rs).2.2 := by
  induction rs generalizing s with
  | nil => simp [drain]
  | cons r rs ih =>
    unfold drain
    by_cases h1 : r.ret < 0
    · by_cases h2 : r.err = EAGAIN <;> simp [h1, h2]
    · by_cases h3 : r.ret = 0
      · have hi := ih (apply_event s r.event_type).1
        cases ht : r.event_type <;> simp_all [apply_event]
      · simp [h1, h3]

/-- The outer loop of `run` never invokes the callback. -/
theorem loop_no_callback (v : Bool) (ws : List WaitReply) (s : KernelGPIO) :
    GpioAction.callback v ∉ (loop s ws).2.2 := by
  induction ws generalizing s with
  | nil => unfold loop; split_ifs <;> simp
  | cons w ws ih =>
    have hd := drain_no_callback v w.reads s
    have hi := ih (drain s w.reads).2.1
    unfold loop
    by_cases hc : loop_condition s = true
    · by_cases hdone : (drain s w.reads).1 = true
      · by_cases hw : w.ret < 0 <;> simp [hc, hdone, hw, hd, hi]
      · by_cases hw : w.ret < 0 <;> simp [hc, hdone, hw, hd]
    · simp [hc]

/-- The function `run` never invokes the callback, installed or not. -/
theorem run_no_callback (v : Bool) (s : KernelGPIO) (b : Bool) (ws : List WaitReply) :
    GpioAction.callback v ∉ (run s b ws).2.2 := by
  have hl := loop_no_callback v ws s
  unfold run
  by_cases hb : b = false
  · simp [hb]
  · by_cases hdone : (loop s ws).1 = true <;> simp [hb, hdone, hl]

/-- The destructor never releases the line request: `m_request` is as before,
no release is performed, and the chip handle is closed. -/
theorem dtor_keeps_request (s : KernelGPIO) :
    (dtor s).1.m_request = s.m_request ∧ (dtor s).1.m_chip = none ∧
    ∀ r, GpioAction.gpiod_line_request_release r ∉ (dtor s).2 := by
  unfold dtor close_chip stop join isRunning
  by_cases hr : s._run = true <;> cases hc : s.m_chip <;> simp [hr, hc]

end KernelGPIO

namespace POpen

/-- The function `init_process_values` always leaves the members of
`no_child`, the command buffer aside. -/
theorem init_process_values_state (s : POpen) :
    (init_process_values s).1 = { no_child with _sys_cmd := s._sys_cmd } := by
  unfold init_process_values no_child
  rfl

/-- On an object with `_pid == -1` the function `reset` returns, runs
`kill -9 -1` through `system` and nothing else, and leaves the process members
as they were. -/
theorem reset_no_child (s : POpen) (system_ret : Int) (replies : List WaitpidReply)
    (h : s._pid = -1) :
    (reset s system_ret replies).1 = true ∧
    (reset s system_ret replies).2.2 = [PosixCall.system "kill -9 -1"] ∧
    (reset s system_ret replies).2.1 = { s with _sys_cmd := "kill -9 -1" } := by
  unfold reset close kill
  simp [h]
  decide

end POpen

/-! ## The claims -/

namespace KernelGPIO

open gpio_direction_t gpio_edge_t

/-- C1: on a fresh instance whose chip is open, `configure(OUTPUT, false, NONE,
true)` with every step granted returns `true` and caches `true` in `m_value`,
yet the next `get_value()` returns `false`: the request just acquired sends it
to the "No request open" branch, and `m_direction` is still `INPUT`. -/
theorem configure_output_then_get_value_reports_false :
    (configure fresh OUTPUT false NONE true kernel_grants).1 = true ∧
    (configured OUTPUT NONE true).m_chip = some 1 ∧
    (configured OUTPUT NONE true).m_request = some 1 ∧
    (configured OUTPUT NONE true).m_value = true ∧
    (configured OUTPUT NONE true).m_direction = INPUT ∧
    (get_value (configured OUTPUT NONE true) line_active).1 = false := by
  decide

/-- C2: on an instance whose stored direction is `OUTPUT` and that holds a
request, `set_value(true)` accepted by the kernel returns `true` and caches
`true`, yet the next `get_value()` returns `false`. -/
theorem set_value_true_then_get_value_reports_false :
    (configured OUTPUT RISING false).m_direction = OUTPUT ∧
    (set_value (configured OUTPUT RISING false) true write_accepted).1 = true ∧
    (set_value (configured OUTPUT RISING false) true write_accepted).2.1.m_value = true ∧
    (get_value (set_value (configured OUTPUT RISING false) true write_accepted).2.1
      line_active).1 = false := by
  decide

/-- C3: after a successful `configure(INPUT, edge=RISING)` and one rising-type
event applied by the loop the latch is `true`, yet the first `get_value()`
returns `false` and leaves the latch `true`. -/
theorem rising_event_then_get_value_reports_false :
    (configure fresh INPUT false RISING false kernel_grants).1 = true ∧
    loop_condition (configured INPUT RISING false) = true ∧
    (after_event RISING edge_event_type.GPIOD_LINE_EDGE_RISING).m_value = true ∧
    (get_value (after_event RISING edge_event_type.GPIOD_LINE_EDGE_RISING) line_active).1
      = false ∧
    (get_value (after_event RISING edge_event_type.GPIOD_LINE_EDGE_RISING)
      line_active).2.1.m_value = true := by
  decide

/-- C4: after a successful `configure(INPUT, edge=FALLING)` and one
falling-type event applied by the loop the latch is `false`; the first
`get_value()` returns `false` but does not force the latch to `true`, and the
second `get_value()` returns `false` as well. -/
theorem falling_event_second_get_value_reports_false :
    (configure fresh INPUT false FALLING false kernel_grants).1 = true ∧
    loop_condition (configured INPUT FALLING false) = true ∧
    (after_event FALLING edge_event_type.GPIOD_LINE_EDGE_FALLING).m_value = false ∧
    (get_value (after_event FALLING edge_event_type.GPIOD_LINE_EDGE_FALLING) line_active).1
      = false ∧
    (get_value (after_event FALLING edge_event_type.GPIOD_LINE_EDGE_FALLING)
      line_active).2.1.m_value = false ∧
    (get_value (get_value (after_event FALLING edge_event_type.GPIOD_LINE_EDGE_FALLING)
      line_active).2.1 line_active).1 = false := by
  decide

/-- C5: in a state with direction `INPUT`, edge `NONE`, chip open and a request
held, while the kernel would report the line active, `get_value()` returns
`false` without reading the line: its only action is the diagnostic of line
369. -/
theorem get_value_input_none_skips_kernel_read :
    (configured INPUT NONE false).m_direction = INPUT ∧
    (configured INPUT NONE false).m_edge = NONE ∧
    (configured INPUT NONE false).m_chip = some 1 ∧
    (configured INPUT NONE false).m_request = some 1 ∧
    (get_value (configured INPUT NONE false) line_active).1 = false ∧
    (get_value (configured INPUT NONE false) line_active).2.2
      = [GpioAction.cout "KernelGPIO : No request open"] := by
  decide

/-- C6: with the chip open and no request held (a reconfiguration the kernel
refused, after an output configuration that cached `true`), `get_value()`
returns `true`. -/
theorem get_value_without_request_returns_cached_true :
    (configure (configured OUTPUT RISING true) OUTPUT false RISING true kernel_refuses).1
      = false ∧
    (configure (configured OUTPUT RISING true) OUTPUT false RISING true
      kernel_refuses).2.1.m_chip = some 1 ∧
    (configure (configured OUTPUT RISING true) OUTPUT false RISING true
      kernel_refuses).2.1.m_request = none ∧
    (get_value (configure (configured OUTPUT RISING true) OUTPUT false RISING true
      kernel_refuses).2.1 line_active).1 = true := by
  decide

/-- C7: `set_value(v)` returns `true` exactly when the stored direction is
`OUTPUT`, a request is held and the kernel accepts the write (a non-negative
result); a `true` result caches `v`; a `false` result leaves the cached value,
direction, edge mode and request handle unchanged; with direction `INPUT` the
result is always `false`. -/
theorem set_value_contract (s : KernelGPIO) (v : Bool) (k : ValueKernel) :
    ((set_value s v k).1 = true ↔
      (s.m_direction = OUTPUT ∧ s.m_request ≠ none ∧ 0 ≤ k.ret)) ∧
    ((set_value s v k).1 = true → (set_value s v k).2.1.m_value = v) ∧
    ((set_value s v k).1 = false →
      (set_value s v k).2.1.m_value = s.m_value ∧
      (set_value s v k).2.1.m_direction = s.m_direction ∧
      (set_value s v k).2.1.m_edge = s.m_edge ∧
      (set_value s v k).2.1.m_request = s.m_request) ∧
    (s.m_direction = INPUT → (set_value s v k).1 = false) := by
  unfold set_value
  by_cases hd : s.m_direction = OUTPUT
  · cases hr : s.m_request with
    | none => simp [hd, hr]
    | some r =>
      by_cases hk : k.ret < 0
      · simp [hd, hk, hr]
      · simp [hd, hk, hr, not_lt.mp hk]
  · simp [hd]

/-- C7 at a concrete input: on an instance whose stored direction is `OUTPUT`
and that holds a request, an accepted `set_value(true)` returns `true` and the
cached value becomes `true`. -/
theorem set_value_contract_witness :
    (set_value (configured OUTPUT RISING false) true write_accepted).1 = true ∧
    (set_value (configured OUTPUT RISING false) true write_accepted).2.1.m_value = true :=
  ⟨by decide,
    (set_value_contract (configured OUTPUT RISING false) true write_accepted).2.1 (by decide)⟩

/-- C8: whenever `configure` returns `false`, from any prior state and for all
arguments and kernel replies, the instance holds no line request afterwards. -/
theorem configure_false_leaves_no_request (s : KernelGPIO) (d : gpio_direction_t) (al : Bool)
    (e : gpio_edge_t) (v : Bool) (k : ConfigureKernel)
    (h : (configure s d al e v k).1 = false) :
    (configure s d al e v k).2.1.m_request = none :=
  (configure_result s d al e v k).1 h

/-- C8 at a concrete input: an instance that holds request 1 is reconfigured,
the kernel refuses the line, and no request is held afterwards. -/
theorem configure_false_leaves_no_request_witness :
    (configured INPUT NONE false).m_request = some 1 ∧
    (configure (configured INPUT NONE false) INPUT true BOTH false kernel_refuses).1 = false ∧
    (configure (configured INPUT NONE false) INPUT true BOTH false
      kernel_refuses).2.1.m_request = none :=
  ⟨by decide, by decide,
    configure_false_leaves_no_request (configured INPUT NONE false) INPUT true BOTH false
      kernel_refuses (by decide)⟩

/-- C9: `configure(OUTPUT, false, NONE, true)` on a fresh instance, with the
initial output value rejected and every other step granted, reports the
rejection on `cout`, carries on, returns `true` and holds the new request; the
value is not cached. -/
theorem configure_succeeds_despite_rejected_output_value :
    kernel_rejects_output_value.set_output_value < 0 ∧
    (configure fresh OUTPUT false NONE true kernel_rejects_output_value).1 = true ∧
    (configure fresh OUTPUT false NONE true kernel_rejects_output_value).2.1.m_request
      = some 1 ∧
    (configure fresh OUTPUT false NONE true kernel_rejects_output_value).2.1.m_value
      = false ∧
    GpioAction.cout " KernelGPIO : Failed to set output value" ∈
      (configure fresh OUTPUT false NONE true kernel_rejects_output_value).2.2 := by
  decide

/-- C10: a successful `configure(INPUT, false, RISING, false)` starts the loop;
a following successful `configure(OUTPUT, false, NONE, true)` performs no
`stop`, leaves `_run`, `m_direction` and `m_edge` as they were, and the
condition of the loop still holds. -/
theorem configure_edge_none_leaves_loop_running :
    (configure fresh INPUT false RISING false kernel_grants).1 = true ∧
    loop_condition (configured INPUT RISING false) = true ∧
    (configure (configured INPUT RISING false) OUTPUT false NONE true kernel_grants).1 = true ∧
    loop_condition
      (configure (configured INPUT RISING false) OUTPUT false NONE true kernel_grants).2.1
      = true ∧
    GpioAction.stop ∉
      (configure (configured INPUT RISING false) OUTPUT false NONE true kernel_grants).2.2 ∧
    (configure (configured INPUT RISING false) OUTPUT false NONE true
      kernel_grants).2.1.m_direction = INPUT ∧
    (configure (configured INPUT RISING false) OUTPUT false NONE true
      kernel_grants).2.1.m_edge = RISING := by
  decide

end KernelGPIO

namespace KernelGPIO

open gpio_direction_t gpio_edge_t

/-- C11: with a callback installed, a running loop that reads and applies one
rising-type event sets the latch to `true` and performs exactly the buffer
allocation, the wait and two reads: the callback is not invoked. -/
theorem run_applies_event_without_callback :
    (set_callback (configured INPUT RISING false) true).m_callback = true ∧
    loop_condition (set_callback (configured INPUT RISING false) true) = true ∧
    (run (set_callback (configured INPUT RISING false) true) true
      [one_event edge_event_type.GPIOD_LINE_EDGE_RISING]).2.1.m_value = true ∧
    (run (set_callback (configured INPUT RISING false) true) true
      [one_event edge_event_type.GPIOD_LINE_EDGE_RISING]).2.2
      = [GpioAction.gpiod_edge_event_buffer_new,
         GpioAction.gpiod_line_request_wait_edge_events (some 1),
         GpioAction.gpiod_line_request_read_edge_events (some 1),
         GpioAction.gpiod_line_request_read_edge_events (some 1)] := by
  decide

/-- C12: after a successful `configure(OUTPUT, true, NONE, false)` on a fresh
instance `get_direction()` is still `INPUT` and `get_active_low()` is still
`false`; after a successful `configure(INPUT, false, NONE, false)` that follows
an `INPUT`/`RISING` configuration `get_edge()` is still `RISING`. -/
theorem configure_accessors_report_stale_configuration :
    (configure fresh OUTPUT true NONE false kernel_grants).1 = true ∧
    get_direction (configure fresh OUTPUT true NONE false kernel_grants).2.1 = INPUT ∧
    get_active_low (configure fresh OUTPUT true NONE false kernel_grants).2.1 = false ∧
    (configure (configured INPUT RISING false) INPUT false NONE false kernel_grants).1 = true ∧
    get_edge (configure (configured INPUT RISING false) INPUT false NONE false
      kernel_grants).2.1 = RISING := by
  decide

/-- C13: the instance constructed as `KernelGPIO("gpiochip0", 17)` reports an
empty chip name and the unset `m_line_num` (0 here) as its line; `configure`
binds the settings to offset 0, not 17, and `set_value` writes offset 0. -/
theorem constructed_identity_is_unset :
    get_chipname constructed = "" ∧
    get_line constructed = 0 ∧
    GpioAction.gpiod_line_config_add_line_settings 0 ∈
      (configure constructed OUTPUT false RISING false kernel_grants).2.2 ∧
    GpioAction.gpiod_line_config_add_line_settings 17 ∉
      (configure constructed OUTPUT false RISING false kernel_grants).2.2 ∧
    (set_value (configure constructed OUTPUT false RISING false kernel_grants).2.1 true
      write_accepted).2.2 = [GpioAction.gpiod_line_request_set_value 1 0 true] := by
  decide

/-- C14: destroying an instance whose loop is running and that holds request 1
stops and joins the loop and closes the chip, but performs no release: the
request handle is still held afterwards. -/
theorem dtor_leaves_request_unreleased :
    (configured INPUT RISING false).m_request = some 1 ∧
    isRunning (configured INPUT RISING false) = true ∧
    (dtor (configured INPUT RISING false)).2
      = [GpioAction.stop, GpioAction.join, GpioAction.gpiod_chip_close 1] ∧
    (dtor (configured INPUT RISING false)).1.m_chip = none ∧
    (dtor (configured INPUT RISING false)).1.m_request = some 1 := by
  decide

/-- C15: in every state with direction `INPUT` and edge `BOTH`, `get_value()`
leaves the state (the latched value with it) as it was, a second call returns
what the first returned, and the latch is the same after the second call. -/
theorem get_value_both_idempotent (s : KernelGPIO) (k1 k2 : GetValueKernel)
    (hd : s.m_direction = INPUT) (he : s.m_edge = BOTH) :
    (get_value s k1).2.1 = s ∧
    (get_value (get_value s k1).2.1 k2).1 = (get_value s k1).1 ∧
    (get_value s k1).2.1.m_value = s.m_value ∧
    (get_value (get_value s k1).2.1 k2).2.1.m_value = (get_value s k1).2.1.m_value := by
  have h1 : ∀ k, (get_value s k).2.1 = s ∧ (get_value s k).1 = (get_value s k1).1 := by
    intro k
    unfold get_value
    cases hc : s.m_chip with
    | none => simp
    | some c =>
      cases hr : s.m_request with
      | some r => simp
      | none => simp [hd, he]
  rw [(h1 k1).1]
  exact ⟨rfl, (h1 k2).2, rfl, congrArg KernelGPIO.m_value (h1 k2).1⟩

/-- C15 at a concrete input: chip open, no request held, direction `INPUT`,
edge `BOTH`, latch `true`; both calls return `true` and the latch stays
`true`. -/
theorem get_value_both_idempotent_witness :
    (get_value both_latched_unconfigured line_active).1 = true ∧
    ((get_value both_latched_unconfigured line_active).2.1 = both_latched_unconfigured ∧
     (get_value (get_value both_latched_unconfigured line_active).2.1 line_active).1
       = (get_value both_latched_unconfigured line_active).1 ∧
     (get_value both_latched_unconfigured line_active).2.1.m_value
       = both_latched_unconfigured.m_value ∧
     (get_value (get_value both_latched_unconfigured line_active).2.1
       line_active).2.1.m_value
       = (get_value both_latched_unconfigured line_active).2.1.m_value) :=
  ⟨by decide,
    get_value_both_idempotent both_latched_unconfigured line_active line_active
      (by decide) (by decide)⟩

end KernelGPIO

namespace POpen

/-- C16: on an object with no child (`_pid == -1`, descriptors and streams
unset) `reset()` returns after running the command `kill -9 -1` through
`system`, and `run_command` starts with the same command; `_pid`, the
descriptors and the `FILE` pointers are left unset by `reset()`. -/
theorem reset_without_child_runs_kill :
    no_child._pid = -1 ∧
    (reset no_child 256 []).1 = true ∧
    (reset no_child 256 []).2.2 = [PosixCall.system "kill -9 -1"] ∧
    (reset no_child 256 []).2.2.any is_kill_command = true ∧
    (reset no_child 256 []).2.1._pid = -1 ∧
    (reset no_child 256 []).2.1._readFd = -1 ∧
    (reset no_child 256 []).2.1._writeFd = -1 ∧
    (reset no_child 256 []).2.1._readFp = none ∧
    (reset no_child 256 []).2.1._writeFp = none ∧
    (run_command no_child "true" spawn_succeeds).1 = some 0 ∧
    (run_command no_child "true" spawn_succeeds).2.2.head?
      = some (PosixCall.system "kill -9 -1") := by
  decide

end POpen
